import Mathlib

/-!
Verification of the private-credit oracle scoring engine and coordinator.

The embedding follows the repository sources:
  - server/src/config.ts   : the SCORING constants.
  - server/src/scanner.ts  : the WalletActivity record.
  - the oracle module      : CreditOracle.calculateCreditScore,
    CreditOracle.updateCreditScore, CreditOracle.hasScore and
    batchUpdateScores.

JavaScript numbers are modelled as integers (all quantities in the scoring
path are integer-valued; Math.floor(150 * 0.7) and Math.floor(150 * 0.4)
evaluate to 105 and 60 in IEEE doubles, which agree with exact integer
division 150*7/10 and 150*4/10 used here).  The repaymentHistory field is
modelled as a String: the TypeScript annotation restricts it to five enum
literals, but the runtime comparisons in calculateCreditScore are plain
string equality tests, and the defect at issue is precisely that one of
those tests uses a string outside the annotated enum.
-/

namespace PrivateCredit

/-- Weights block of the SCORING constant (config.ts lines 27-33). -/
structure Weights where
  hasLendingActivity : Int
  neverLiquidated : Int
  accountAge : Int
  multiProtocol : Int
  perfectRepayment : Int
deriving DecidableEq

/-- Thresholds block of the SCORING constant (config.ts lines 35-38). -/
structure Thresholds where
  accountAgeMonths : Int
  minProtocols : Int
deriving DecidableEq

/-- Shape of the SCORING constant (config.ts lines 22-39). -/
structure ScoringConfig where
  minScore : Int
  maxScore : Int
  baseScore : Int
  weights : Weights
  thresholds : Thresholds
deriving DecidableEq

/-- The SCORING constant from config.ts lines 22-39, verbatim. -/
def SCORING : ScoringConfig :=
  { minScore := 300
    maxScore := 850
    baseScore := 500
    weights :=
      { hasLendingActivity := 100
        neverLiquidated := 50
        accountAge := 100
        multiProtocol := 50
        perfectRepayment := 150 }
    thresholds :=
      { accountAgeMonths := 6
        minProtocols := 2 } }

/-- WalletActivity record (scanner.ts lines 4-13).  repaymentHistory is a
String at runtime; the TypeScript annotation names the five enum literals
none, poor, average, good, strong. -/
structure WalletActivity where
  address : String
  hasLendingActivity : Bool
  neverLiquidated : Bool
  accountAgeMonths : Int
  protocolCount : Int
  repaymentHistory : String
  totalBorrowedUSD : Int
  totalRepaidUSD : Int
deriving DecidableEq

/-- The repayment-tier branch chain of calculateCreditScore (oracle module
lines 103-113): an if / else-if chain of exact string comparisons against
the literals perfect, good, average; any other value falls through with no
bonus.  Math.floor of 150*0.7 and 150*0.4 is exact integer division here
(both agree: 105 and 60). -/
def repaymentBonus (repaymentHistory : String) : Int :=
  if repaymentHistory = "perfect" then SCORING.weights.perfectRepayment
  else if repaymentHistory = "good" then SCORING.weights.perfectRepayment * 7 / 10
  else if repaymentHistory = "average" then SCORING.weights.perfectRepayment * 4 / 10
  else 0

/-- The running sum built by calculateCreditScore before the two clamps
(oracle module lines 76-113): base score plus the four independent
conditional bonuses plus the repayment-tier bonus. -/
def rawScore (activity : WalletActivity) : Int :=
  SCORING.baseScore
    + (if activity.hasLendingActivity then SCORING.weights.hasLendingActivity else 0)
    + (if activity.neverLiquidated then SCORING.weights.neverLiquidated else 0)
    + (if SCORING.thresholds.accountAgeMonths ≤ activity.accountAgeMonths then
        SCORING.weights.accountAge else 0)
    + (if SCORING.thresholds.minProtocols ≤ activity.protocolCount then
        SCORING.weights.multiProtocol else 0)
    + repaymentBonus activity.repaymentHistory

/-- CreditOracle.calculateCreditScore (oracle module lines 76-120): the raw
sum, clamped with Math.min against maxScore and then Math.max against
minScore, in that order. -/
def calculateCreditScore (activity : WalletActivity) : Int :=
  max (min (rawScore activity) SCORING.maxScore) SCORING.minScore

/-- A snapshot is valid when its numeric fields are non-negative integers
and its repayment tier is one of the five annotated enum literals. -/
def ValidSnapshot (a : WalletActivity) : Prop :=
  0 ≤ a.accountAgeMonths ∧ 0 ≤ a.protocolCount ∧
    a.repaymentHistory ∈ ["none", "poor", "average", "good", "strong"]

/-- The all-positive snapshot of the spec, with the top enum tier strong
(mock profile 0 of scanner.ts). -/
def strongSnapshot : WalletActivity :=
  { address := "0x0"
    hasLendingActivity := true
    neverLiquidated := true
    accountAgeMonths := 12
    protocolCount := 3
    repaymentHistory := "strong"
    totalBorrowedUSD := 50000
    totalRepaidUSD := 50000 }

/-- The good-tier snapshot of the spec (mock profile 1 of scanner.ts). -/
def goodSnapshot : WalletActivity :=
  { address := "0x1"
    hasLendingActivity := true
    neverLiquidated := true
    accountAgeMonths := 8
    protocolCount := 2
    repaymentHistory := "good"
    totalBorrowedUSD := 25000
    totalRepaidUSD := 25000 }

/-- The average-tier snapshot of the spec (mock profile 2 of scanner.ts). -/
def averageSnapshot : WalletActivity :=
  { address := "0x2"
    hasLendingActivity := true
    neverLiquidated := true
    accountAgeMonths := 4
    protocolCount := 1
    repaymentHistory := "average"
    totalBorrowedUSD := 10000
    totalRepaidUSD := 9500 }

/-- The none-tier snapshot of the spec (mock profile 3 of scanner.ts). -/
def noneSnapshot : WalletActivity :=
  { address := "0x3"
    hasLendingActivity := false
    neverLiquidated := true
    accountAgeMonths := 1
    protocolCount := 0
    repaymentHistory := "none"
    totalBorrowedUSD := 0
    totalRepaidUSD := 0 }

/-- An otherwise-empty profile whose only positive factor is the good
repayment tier. -/
def bareGoodSnapshot : WalletActivity :=
  { address := "0x4"
    hasLendingActivity := false
    neverLiquidated := false
    accountAgeMonths := 0
    protocolCount := 0
    repaymentHistory := "good"
    totalBorrowedUSD := 0
    totalRepaidUSD := 0 }

/-- The same profile with the repayment tier raised from good to the top
enum tier strong. -/
def bareStrongSnapshot : WalletActivity :=
  { bareGoodSnapshot with address := "0x5", repaymentHistory := "strong" }

/-- The repayment bonus is non-negative for every string value. -/
theorem repaymentBonus_nonneg (s : String) : 0 ≤ repaymentBonus s := by
  unfold repaymentBonus
  split_ifs <;> decide

/-- The repayment bonus never exceeds the perfect-tier weight 150. -/
theorem repaymentBonus_le (s : String) : repaymentBonus s ≤ 150 := by
  unfold repaymentBonus
  split_ifs <;> decide

/-- The raw pre-clamp sum is at least the base score 500: every bonus is a
non-negative addition. -/
theorem rawScore_ge_base (a : WalletActivity) : 500 ≤ rawScore a := by
  have hb := repaymentBonus_nonneg a.repaymentHistory
  unfold rawScore SCORING
  split_ifs <;> dsimp only <;> omega

/-- The raw pre-clamp sum is at most 950: the bonuses total at most 450. -/
theorem rawScore_le (a : WalletActivity) : rawScore a ≤ 950 := by
  have hb := repaymentBonus_le a.repaymentHistory
  unfold rawScore SCORING
  split_ifs <;> dsimp only <;> omega

/-- Claim C1: the code does not award the 150 bonus to the top enum tier
strong.  The all-positive strong snapshot sums to 800 pre-clamp (not 950)
and the final score is 800 (not 850): the 150 branch of the tier chain
compares against the string perfect, which lies outside the annotated
enum, so the strong tier falls through with bonus 0. -/
theorem c1_strong_snapshot_evaluates_to_800 :
    rawScore strongSnapshot = 800 ∧ calculateCreditScore strongSnapshot = 800 := by
  constructor <;> decide

/-- Claim C2: for every valid snapshot the final score lies in the
inclusive interval from minScore 300 to maxScore 850.  (The clamps in fact
enforce this for every snapshot.) -/
theorem c2_score_in_range (a : WalletActivity) (h : ValidSnapshot a) :
    300 ≤ calculateCreditScore a ∧ calculateCreditScore a ≤ 850 := by
  refine ⟨le_max_right _ _, max_le (min_le_right _ _) (by decide)⟩

/-- Witness for C2 at the concrete none-tier snapshot. -/
theorem c2_score_in_range_witness :
    ValidSnapshot noneSnapshot ∧
      300 ≤ calculateCreditScore noneSnapshot ∧ calculateCreditScore noneSnapshot ≤ 850 :=
  ⟨by constructor <;> decide, c2_score_in_range noneSnapshot (by constructor <;> decide)⟩

/-- Claim C3: monotonicity in the repayment tier fails in the code.
Raising the tier from good to strong on an otherwise bare profile lowers
the score from 605 to 500, because the top-tier branch compares against
the out-of-enum string perfect and strong earns no bonus. -/
theorem c3_raising_tier_to_strong_lowers_score :
    calculateCreditScore bareGoodSnapshot = 605 ∧
      calculateCreditScore bareStrongSnapshot = 500 := by
  constructor <;> decide

/-- Claim C4: the tier chain is mutually exclusive, but the top-tier
contribution is wrong: the enum tier strong contributes 0 while the 150
weight is attached to the out-of-enum literal perfect. -/
theorem c4_strong_tier_contributes_zero :
    repaymentBonus "strong" = 0 ∧ repaymentBonus "perfect" = 150 ∧
      repaymentBonus "good" = 105 ∧ repaymentBonus "average" = 60 ∧
      repaymentBonus "poor" = 0 ∧ repaymentBonus "none" = 0 := by
  refine ⟨by decide, by decide, by decide, by decide, by decide, by decide⟩

/-- Claim C5: the spec's remaining concrete cases hold on the code: the
good-tier snapshot sums to 905 and clamps to 850, the average-tier
snapshot scores 710, and the none-tier snapshot scores 550. -/
theorem c5_concrete_cases :
    rawScore goodSnapshot = 905 ∧ calculateCreditScore goodSnapshot = 850 ∧
      calculateCreditScore averageSnapshot = 710 ∧
      calculateCreditScore noneSnapshot = 550 := by
  refine ⟨by decide, by decide, by decide, by decide⟩

/-- Claim C9: tiers are matched by exact string comparison and scoring is
total: any repaymentHistory value equal to none of the three comparison
literals contributes a bonus of zero, so the raw sum reduces to the four
independent bonuses over the base. -/
theorem c9_unrecognized_tier_contributes_zero (s : String)
    (h1 : s ≠ "perfect") (h2 : s ≠ "good") (h3 : s ≠ "average") :
    repaymentBonus s = 0 ∧
      ∀ a : WalletActivity, a.repaymentHistory = s →
        rawScore a = 500
          + (if a.hasLendingActivity then 100 else 0)
          + (if a.neverLiquidated then 50 else 0)
          + (if (6 : Int) ≤ a.accountAgeMonths then 100 else 0)
          + (if (2 : Int) ≤ a.protocolCount then 50 else 0) := by
  have hz : repaymentBonus s = 0 := by
    unfold repaymentBonus
    rw [if_neg h1, if_neg h2, if_neg h3]
  refine ⟨hz, fun a ha => ?_⟩
  unfold rawScore SCORING
  rw [ha, hz]
  dsimp only
  omega

/-- Witness for C9 at the unmatched enum tier strong, on the bare strong
snapshot. -/
theorem c9_unrecognized_tier_contributes_zero_witness :
    repaymentBonus "strong" = 0 ∧ rawScore bareStrongSnapshot = 500 := by
  have h := c9_unrecognized_tier_contributes_zero "strong"
    (by decide) (by decide) (by decide)
  exact ⟨h.1, by rw [h.2 bareStrongSnapshot rfl]; decide⟩

/-- Claim C10: with non-negative age and protocol count (indeed for every
snapshot) the final score is at least the base 500, so the lower clamp to
minScore 300 never changes the result: the score equals the max-clamped
raw sum alone. -/
theorem c10_lower_clamp_never_fires (a : WalletActivity)
    (h1 : 0 ≤ a.accountAgeMonths) (h2 : 0 ≤ a.protocolCount) :
    500 ≤ calculateCreditScore a ∧
      calculateCreditScore a = min (rawScore a) SCORING.maxScore := by
  have hmin : (500 : Int) ≤ min (rawScore a) SCORING.maxScore :=
    le_min (rawScore_ge_base a) (by decide)
  refine ⟨le_trans hmin (le_max_left _ _), max_eq_left (le_trans (by decide) hmin)⟩

/-- Witness for C10 at the concrete average-tier snapshot. -/
theorem c10_lower_clamp_never_fires_witness :
    (0 : Int) ≤ averageSnapshot.accountAgeMonths ∧
      (0 : Int) ≤ averageSnapshot.protocolCount ∧
      500 ≤ calculateCreditScore averageSnapshot ∧
      calculateCreditScore averageSnapshot
        = min (rawScore averageSnapshot) SCORING.maxScore :=
  ⟨by decide, by decide,
    c10_lower_clamp_never_fires averageSnapshot (by decide) (by decide)⟩

/-- Receipt returned by tx.wait() in updateCreditScore. -/
structure TxReceipt where
  blockNumber : Int
  hash : String
deriving DecidableEq

/-- Pending transaction handle returned by creditRegistry.updateScore: its
hash, and the outcome of awaiting its confirmation. -/
structure PendingTx where
  hash : String
  wait : Except String TxReceipt

/-- External collaborators of CreditOracle.updateCreditScore: the ethers
address-format validator, the wallet-activity scanner, and the registry
contract submission.  Each network-facing call may fail with a message. -/
structure OracleEnv where
  isAddress : String → Bool
  scanWalletActivity : String → Except String WalletActivity
  updateScore : String → Int → Except String PendingTx

/-- The errors updateCreditScore can propagate to its caller, labelled by
the step that threw. -/
inductive OracleError where
  | invalidAddress : OracleError
  | scanFailed : String → OracleError
  | submitFailed : String → OracleError
  | txFailed : String → OracleError
deriving DecidableEq

/-- One observable outward call made during a single update flow. -/
inductive NetworkCall where
  | scanActivity : String → NetworkCall
  | submitTx : String → Int → NetworkCall
  | waitForReceipt : String → NetworkCall
deriving DecidableEq

/-- The {score, txHash} record returned on success. -/
structure UpdateResult where
  score : Int
  txHash : String
deriving DecidableEq

/-- CreditOracle.updateCreditScore (oracle module lines 37-72): validate
the address with ethers.isAddress and throw Invalid Ethereum address on
failure, else scan activity, compute the score, submit updateScore, await
the receipt, and return {score, txHash}.  The catch block logs and
rethrows, so every error propagates.  The second component records the
outward calls made, in order. -/
def updateCreditScore (env : OracleEnv) (userAddress : String) :
    Except OracleError UpdateResult × List NetworkCall :=
  if !env.isAddress userAddress then
    (Except.error OracleError.invalidAddress, [])
  else
    match env.scanWalletActivity userAddress with
    | Except.error m =>
        (Except.error (OracleError.scanFailed m),
          [NetworkCall.scanActivity userAddress])
    | Except.ok activity =>
        let score := calculateCreditScore activity
        match env.updateScore userAddress score with
        | Except.error m =>
            (Except.error (OracleError.submitFailed m),
              [NetworkCall.scanActivity userAddress,
                NetworkCall.submitTx userAddress score])
        | Except.ok tx =>
            match tx.wait with
            | Except.error m =>
                (Except.error (OracleError.txFailed m),
                  [NetworkCall.scanActivity userAddress,
                    NetworkCall.submitTx userAddress score,
                    NetworkCall.waitForReceipt tx.hash])
            | Except.ok receipt =>
                (Except.ok { score := score, txHash := receipt.hash },
                  [NetworkCall.scanActivity userAddress,
                    NetworkCall.submitTx userAddress score,
                    NetworkCall.waitForReceipt tx.hash])

/-- CreditOracle.hasScore (oracle module lines 123-130): query the
registry; on success return the contract boolean, on any query error
catch, log and return false.  The query collaborator is passed in. -/
def hasScore (query : String → Except String Bool) (userAddress : String) : Bool :=
  match query userAddress with
  | Except.ok b => b
  | Except.error _ => false

/-- One logged line of a batch run: either the successful result for an
address, or the caught and logged per-address error. -/
inductive BatchEntry where
  | succeeded : String → UpdateResult → BatchEntry
  | failedAndLogged : String → OracleError → BatchEntry
deriving DecidableEq

/-- The address a batch entry is about. -/
def BatchEntry.addr : BatchEntry → String
  | BatchEntry.succeeded a _ => a
  | BatchEntry.failedAndLogged a _ => a

/-- batchUpdateScores (oracle module lines 160-178): iterate the address
list in order; for each address try updateCreditScore, catching any
per-address error (which is logged, not rethrown), then continue with the
rest.  The returned list records what happened for each address, in
processing order.  (The fixed 2-second inter-item delay has no observable
effect on the recorded outcomes and is not modelled.) -/
def batchUpdateScores (env : OracleEnv) : List String → List BatchEntry
  | [] => []
  | address :: rest =>
      (match (updateCreditScore env address).1 with
        | Except.ok r => BatchEntry.succeeded address r
        | Except.error e => BatchEntry.failedAndLogged address e)
        :: batchUpdateScores env rest

/-- Claim C6: when the address fails format validation, the update flow
fails with the invalid-address error and makes no outward call at all:
neither the activity scan nor the contract submission happens. -/
theorem c6_invalid_address_no_network_call (env : OracleEnv) (addr : String)
    (h : env.isAddress addr = false) :
    updateCreditScore env addr = (Except.error OracleError.invalidAddress, []) := by
  unfold updateCreditScore
  rw [h]
  rfl

/-- Witness for C6: a concrete environment whose validator rejects the
address. -/
theorem c6_invalid_address_no_network_call_witness :
    (OracleEnv.mk (fun _ => false) (fun _ => Except.error "down")
        (fun _ _ => Except.error "down")).isAddress "zzz" = false ∧
      updateCreditScore
        (OracleEnv.mk (fun _ => false) (fun _ => Except.error "down")
          (fun _ _ => Except.error "down")) "zzz"
        = (Except.error OracleError.invalidAddress, []) :=
  ⟨rfl,
    c6_invalid_address_no_network_call
      (OracleEnv.mk (fun _ => false) (fun _ => Except.error "down")
        (fun _ _ => Except.error "down")) "zzz" rfl⟩

/-- Claim C7: hasScore never propagates a query error: if the query fails
with any message the result is false, and if the query succeeds the
contract boolean is returned unchanged.  (Returning Bool rather than a
fallible value is the no-throw guarantee.) -/
theorem c7_hasScore_degrades_to_false (query : String → Except String Bool)
    (addr : String) :
    (∀ e, query addr = Except.error e → hasScore query addr = false) ∧
      (∀ b, query addr = Except.ok b → hasScore query addr = b) := by
  constructor
  · intro e he
    unfold hasScore
    rw [he]
  · intro b hb
    unfold hasScore
    rw [hb]

/-- Witness for C7: a failing query yields false, a succeeding query
returns the contract value true. -/
theorem c7_hasScore_degrades_to_false_witness :
    hasScore (fun _ => Except.error "boom") "0xA" = false ∧
      hasScore (fun _ => Except.ok true) "0xA" = true :=
  ⟨(c7_hasScore_degrades_to_false (fun _ => Except.error "boom") "0xA").1 "boom" rfl,
    (c7_hasScore_degrades_to_false (fun _ => Except.ok true) "0xA").2 true rfl⟩

/-- The batch loop body is independent per item: splitting the address
list anywhere splits the recorded outcomes at the same point, so an
earlier failure never changes how later addresses are handled. -/
theorem batchUpdateScores_append (env : OracleEnv) (xs ys : List String) :
    batchUpdateScores env (xs ++ ys)
      = batchUpdateScores env xs ++ batchUpdateScores env ys := by
  induction xs with
  | nil => rfl
  | cons a rest ih =>
      simp only [List.cons_append, batchUpdateScores]
      rw [List.append_eq, ih]

/-- Claim C8: batch mode records one outcome per input address, in input
order (so every item is attempted and none is skipped), per-item errors
are captured in the entry rather than thrown, and whenever the input list
splits as pre ++ post the outcomes split likewise: a failure inside pre
cannot abort processing of post. -/
theorem c8_batch_sequential_no_abort (env : OracleEnv) (addresses : List String) :
    (batchUpdateScores env addresses).map BatchEntry.addr = addresses ∧
      (∀ pre post, addresses = pre ++ post →
        batchUpdateScores env addresses
          = batchUpdateScores env pre ++ batchUpdateScores env post) := by
  constructor
  · induction addresses with
    | nil => rfl
    | cons a rest ih =>
        simp only [batchUpdateScores, List.map_cons, ih, List.cons.injEq, and_true]
        cases h : (updateCreditScore env a).1 <;> rfl
  · intro pre post hsplit
    rw [hsplit, batchUpdateScores_append]

/-- Witness for C8: an environment that fails every update still yields a
logged entry for each of two addresses, in order, and the split law holds
at the concrete split. -/
theorem c8_batch_sequential_no_abort_witness :
    (batchUpdateScores
        (OracleEnv.mk (fun _ => false) (fun _ => Except.error "down")
          (fun _ _ => Except.error "down")) ["a", "b"]).map BatchEntry.addr
        = ["a", "b"] ∧
      batchUpdateScores
          (OracleEnv.mk (fun _ => false) (fun _ => Except.error "down")
            (fun _ _ => Except.error "down")) ["a", "b"]
        = batchUpdateScores
            (OracleEnv.mk (fun _ => false) (fun _ => Except.error "down")
              (fun _ _ => Except.error "down")) ["a"]
          ++ batchUpdateScores
              (OracleEnv.mk (fun _ => false) (fun _ => Except.error "down")
                (fun _ _ => Except.error "down")) ["b"] :=
  ⟨(c8_batch_sequential_no_abort
      (OracleEnv.mk (fun _ => false) (fun _ => Except.error "down")
        (fun _ _ => Except.error "down")) ["a", "b"]).1,
    (c8_batch_sequential_no_abort
      (OracleEnv.mk (fun _ => false) (fun _ => Except.error "down")
        (fun _ _ => Except.error "down")) ["a", "b"]).2 ["a"] ["b"] rfl⟩

end PrivateCredit
